import Mathlib

/-!
Verification of the webhook dispatch service: a shallow embedding of
`adws/adw_modules/webhook_security.py`, `adws/adw_modules/port_manager.py`,
`adws/adw_triggers/ngrok_manager.py` and `adws/adw_triggers/trigger_webhook.py`,
with theorems checking the specification's claims about them.

Bytes are modelled as `Nat` (each `< 256`), machine words as `Nat` reduced
modulo `2 ^ 32`, Python strings as Lean `String` (Python string operations are
code-point-wise, matching `String.data : List Char`), and I/O performed by the
code as explicit oracles passed in as data.
-/

/-! ## SHA-256 and HMAC-SHA256

`webhook_security.validate_github_signature` calls `hashlib.sha256` through
`hmac.new`; the library computation is embedded here concretely (FIPS 180-4),
operating on byte lists. -/

/-- Reduce a word modulo `2 ^ 32`. -/
def w32 (n : Nat) : Nat := n % 4294967296

/-- Right rotation of a 32-bit word. -/
def rotr32 (n x : Nat) : Nat := w32 ((x >>> n) ||| (x <<< (32 - n)))

/-- SHA-256 round constants (fractional parts of cube roots of the first 64
primes). -/
def sha256K : List Nat := [
  1116352408, 1899447441, 3049323471, 3921009573, 961987163, 1508970993,
  2453635748, 2870763221, 3624381080, 310598401, 607225278, 1426881987,
  1925078388, 2162078206, 2614888103, 3248222580, 3835390401, 4022224774,
  264347078, 604807628, 770255983, 1249150122, 1555081692, 1996064986,
  2554220882, 2821834349, 2952996808, 3210313671, 3336571891, 3584528711,
  113926993, 338241895, 666307205, 773529912, 1294757372, 1396182291,
  1695183700, 1986661051, 2177026350, 2456956037, 2730485921, 2820302411,
  3259730800, 3345764771, 3516065817, 3600352804, 4094571909, 275423344,
  430227734, 506948616, 659060556, 883997877, 958139571, 1322822218,
  1537002063, 1747873779, 1955562222, 2024104815, 2227730452, 2361852424,
  2428436474, 2756734187, 3204031479, 3329325298]

/-- SHA-256 initial hash value (fractional parts of square roots of the first
8 primes). -/
def sha256H0 : List Nat := [
  1779033703, 3144134277, 1013904242, 2773480762,
  1359893119, 2600822924, 528734635, 1541459225]

/-- A `Nat` as 8 big-endian bytes. -/
def be64 (n : Nat) : List Nat :=
  [(n >>> 56) % 256, (n >>> 48) % 256, (n >>> 40) % 256, (n >>> 32) % 256,
   (n >>> 24) % 256, (n >>> 16) % 256, (n >>> 8) % 256, n % 256]

/-- A 32-bit word as 4 big-endian bytes. -/
def be32 (n : Nat) : List Nat :=
  [(n >>> 24) % 256, (n >>> 16) % 256, (n >>> 8) % 256, n % 256]

/-- FIPS 180-4 message padding: append `0x80`, zeros to 56 mod 64, then the
bit length as 8 big-endian bytes. -/
def sha256Pad (msg : List Nat) : List Nat :=
  msg ++ 0x80 :: List.replicate ((119 - msg.length % 64) % 64) 0 ++ be64 (8 * msg.length)

/-- Split a byte list into 64-byte blocks (fuel-driven; the fuel is the list
length, ample since each step consumes 64 bytes). -/
def sha256ChunksAux : Nat → List Nat → List (List Nat)
  | 0, _ => []
  | _, [] => []
  | fuel + 1, l => l.take 64 :: sha256ChunksAux fuel (l.drop 64)

/-- Split a (padded) byte list into its 64-byte blocks. -/
def sha256Chunks (l : List Nat) : List (List Nat) := sha256ChunksAux l.length l

/-- The 16 initial 32-bit message-schedule words of a block (big-endian). -/
def sha256Words (b : List Nat) : Array Nat :=
  (List.range 16).foldl (fun a i =>
    a.push (b.getD (4 * i) 0 <<< 24 + b.getD (4 * i + 1) 0 <<< 16 +
      b.getD (4 * i + 2) 0 <<< 8 + b.getD (4 * i + 3) 0)) #[]

/-- Message-schedule small sigma-0. -/
def ssig0 (x : Nat) : Nat := rotr32 7 x ^^^ rotr32 18 x ^^^ (x >>> 3)

/-- Message-schedule small sigma-1. -/
def ssig1 (x : Nat) : Nat := rotr32 17 x ^^^ rotr32 19 x ^^^ (x >>> 10)

/-- Working-variable big sigma-0. -/
def bsig0 (x : Nat) : Nat := rotr32 2 x ^^^ rotr32 13 x ^^^ rotr32 22 x

/-- Working-variable big sigma-1. -/
def bsig1 (x : Nat) : Nat := rotr32 6 x ^^^ rotr32 11 x ^^^ rotr32 25 x

/-- Choose function: bits of `y` or `z` selected by `x`. -/
def sha256Ch (x y z : Nat) : Nat := (x &&& y) ^^^ ((x ^^^ 0xffffffff) &&& z)

/-- Majority function. -/
def sha256Maj (x y z : Nat) : Nat := (x &&& y) ^^^ (x &&& z) ^^^ (y &&& z)

/-- Extend the 16 schedule words to 64. -/
def sha256Extend (w : Array Nat) : Array Nat :=
  (List.range 48).foldl (fun w i =>
    let t := i + 16
    w.push (w32 (ssig1 (w.getD (t - 2) 0) + w.getD (t - 7) 0 +
      ssig0 (w.getD (t - 15) 0) + w.getD (t - 16) 0))) w

/-- One round of the SHA-256 compression function on the 8 working variables. -/
def sha256Round (w : Array Nat) (v : List Nat) (i : Nat) : List Nat :=
  let a := v.getD 0 0
  let b := v.getD 1 0
  let c := v.getD 2 0
  let d := v.getD 3 0
  let e := v.getD 4 0
  let f := v.getD 5 0
  let g := v.getD 6 0
  let h := v.getD 7 0
  let t1 := w32 (h + bsig1 e + sha256Ch e f g + sha256K.getD i 0 + w.getD i 0)
  let t2 := w32 (bsig0 a + sha256Maj a b c)
  [w32 (t1 + t2), a, b, c, w32 (d + t1), e, f, g]

/-- Compress one 64-byte block into the running hash state. -/
def sha256Compress (hsh : List Nat) (block : List Nat) : List Nat :=
  let w := sha256Extend (sha256Words block)
  let v := (List.range 64).foldl (sha256Round w) hsh
  (hsh.zip v).map (fun p => w32 (p.1 + p.2))

/-- SHA-256 of a byte list, as its 32 digest bytes. -/
def sha256 (msg : List Nat) : List Nat :=
  (((sha256Chunks (sha256Pad msg)).foldl sha256Compress sha256H0).map be32).flatten

/-- HMAC-SHA256 (RFC 2104) of a message under a key, as its 32 digest bytes. -/
def hmacSha256 (key msg : List Nat) : List Nat :=
  let k0 := if 64 < key.length then sha256 key else key
  let kPad := k0 ++ List.replicate (64 - k0.length) 0
  sha256 ((kPad.map (fun b => b ^^^ 0x5c)) ++
    sha256 ((kPad.map (fun b => b ^^^ 0x36)) ++ msg))

/-- A nibble as a lowercase hex character. -/
def hexChar (n : Nat) : Char :=
  if n < 10 then Char.ofNat (48 + n) else Char.ofNat (87 + n)

/-- Bytes as a lowercase hex string (Python's `hexdigest()`). -/
def bytesToHex (bs : List Nat) : String :=
  String.mk (bs.foldr (fun b acc => hexChar (b / 16) :: hexChar (b % 16) :: acc) [])

/-- `hmac.new(key, msg, hashlib.sha256).hexdigest()`. -/
def hmacSha256Hex (key msg : List Nat) : String := bytesToHex (hmacSha256 key msg)

/-- UTF-8 encoding of one code point. -/
def utf8Char (n : Nat) : List Nat :=
  if n < 0x80 then [n]
  else if n < 0x800 then [0xc0 + n / 64, 0x80 + n % 64]
  else if n < 0x10000 then [0xe0 + n / 4096, 0x80 + n / 64 % 64, 0x80 + n % 64]
  else [0xf0 + n / 262144, 0x80 + n / 4096 % 64, 0x80 + n / 64 % 64, 0x80 + n % 64]

/-- Python's `str.encode("utf-8")` as a byte list. -/
def utf8Encode (s : String) : List Nat :=
  s.data.foldr (fun c acc => utf8Char c.toNat ++ acc) []

/-! ## `webhook_security.validate_github_signature`

Python string slicing and prefix testing are code-point-wise; they are embedded
on `String.data`. -/

/-- Python `s.startswith(p)` on strings, code-point-wise. -/
def strStartsWith (s p : String) : Bool := p.data.isPrefixOf s.data

/-- Python `s[n:]` on strings, code-point-wise. -/
def strDrop (s : String) (n : Nat) : String := String.mk (s.data.drop n)

/-- `validate_github_signature(payload_body, signature_header, secret)`
(webhook_security.py lines 13-47): fails closed on a falsy header or secret or
a header lacking the `"sha256="` prefix, otherwise compares the header's hex
digest to the HMAC-SHA256 of the body under the UTF-8 bytes of the secret.
(`hmac.compare_digest` is equality; its constant-time execution is a timing
property outside this embedding.) -/
def validate_github_signature (payload_body : List Nat) (signature_header : Option String)
    (secret : String) : Bool :=
  match signature_header with
  | none => false
  | some h =>
    if h = "" || secret = "" then false
    else if strStartsWith h "sha256=" then
      hmacSha256Hex (utf8Encode secret) payload_body == strDrop h 7
    else false

/-! ## `port_manager.is_port_in_use`

The TCP probe `socket.connect_ex` is I/O; it is passed in as an oracle mapping
host and port to either a returned error code or a raised exception. -/

/-- The outcome of the `connect_ex` probe for each host/port. -/
structure ConnectEnv where
  connectEx : String → Nat → Except Unit Int

/-- `is_port_in_use(port, host)` (port_manager.py lines 19-37): the port is in
use iff the timed connect probe returns 0; any exception from the probe is
caught, logged and reported as not-in-use. -/
def is_port_in_use (env : ConnectEnv) (port : Nat) (host : String) : Bool :=
  match env.connectEx host port with
  | .ok r => r == 0
  | .error _ => false

/-! ## `port_manager.kill_process_on_port`

Per attempt, the loop performs a pid lookup, an `os.kill`, a short sleep and a
port re-probe; each is an oracle indexed by the attempt number. -/

/-- The outcome of `os.kill(pid, sig)` at one attempt. -/
inductive KillOutcome where
  | ok
  | noSuchProcess
  | permissionDenied
  | otherError
deriving DecidableEq, Repr

/-- Signal kinds sent by the reclaim loop. -/
inductive Sig where
  | term
  | kill
deriving DecidableEq, Repr

/-- The oracles consumed by `kill_process_on_port`, indexed by attempt. -/
structure KillEnv where
  lookup : Nat → Option Nat
  killResult : Nat → KillOutcome
  portInUseAfter : Nat → Bool

/-- Result of a reclaim run, with ghost instrumentation: the number of loop
iterations entered and every signal sent, tagged by its attempt index. -/
structure KillRun where
  result : Bool
  iterations : Nat
  signals : List (Nat × Sig)
deriving DecidableEq, Repr

/-- The signal chosen at an attempt: `SIGKILL if force or attempt > 0 else
SIGTERM` (port_manager.py line 108). -/
def sigFor (force : Bool) (attempt : Nat) : Sig :=
  if force || attempt > 0 then .kill else .term

/-- The reclaim loop of `kill_process_on_port` (port_manager.py lines 100-132):
`remaining` is loop fuel, `i` the current attempt index.  A missing owner or an
already-dead process returns success; a permission error returns failure at
once; after a delivered signal the port is re-probed and a free port returns
success; any other error falls through to the next attempt. -/
def killLoopAux (env : KillEnv) (force : Bool) : Nat → Nat → KillRun
  | 0, _ => { result := false, iterations := 0, signals := [] }
  | remaining + 1, i =>
    match env.lookup i with
    | none => { result := true, iterations := 1, signals := [] }
    | some _ =>
      let s := sigFor force i
      match env.killResult i with
      | .noSuchProcess => { result := true, iterations := 1, signals := [(i, s)] }
      | .permissionDenied => { result := false, iterations := 1, signals := [(i, s)] }
      | .ok =>
        if env.portInUseAfter i then
          let rest := killLoopAux env force remaining (i + 1)
          { result := rest.result, iterations := rest.iterations + 1,
            signals := (i, s) :: rest.signals }
        else { result := true, iterations := 1, signals := [(i, s)] }
      | .otherError =>
        let rest := killLoopAux env force remaining (i + 1)
        { result := rest.result, iterations := rest.iterations + 1,
          signals := (i, s) :: rest.signals }

/-- `kill_process_on_port(port, force, max_retries)` with ghost
instrumentation. -/
def kill_process_on_port_run (env : KillEnv) (force : Bool) (max_retries : Nat) : KillRun :=
  killLoopAux env force max_retries 0

/-- `kill_process_on_port(port, force, max_retries)` (port_manager.py lines
88-132), boolean result. -/
def kill_process_on_port (env : KillEnv) (force : Bool) (max_retries : Nat) : Bool :=
  (kill_process_on_port_run env force max_retries).result

/-- What one attempt amounts to, in the vocabulary of the spec's `reclaim`
contract: `succeed` - no owner found, owner already dead, or the port observed
free after the signal; `abort` - the termination signal was refused with a
permission error; `retry` - anything else. -/
inductive AttemptStep where
  | succeed
  | abort
  | retry
deriving DecidableEq, Repr

/-- Classify attempt `i` of a reclaim run. -/
def attemptStep (env : KillEnv) (i : Nat) : AttemptStep :=
  match env.lookup i with
  | none => .succeed
  | some _ =>
    match env.killResult i with
    | .noSuchProcess => .succeed
    | .permissionDenied => .abort
    | .ok => if env.portInUseAfter i then .retry else .succeed
    | .otherError => .retry

/-! ## `port_manager.find_available_port` -/

/-- The oracles consumed by the port scan: the probe verdict and the actual
bind outcome per port. -/
structure ScanEnv where
  inUse : Nat → Bool
  bindOk : Nat → Bool

/-- The scan loop of `find_available_port` (port_manager.py lines 147-156):
skip ports the probe reports in use; otherwise attempt an actual bind and
return the port only if the bind succeeded (`OSError` falls through to the
next candidate). -/
def scanLoopAux (env : ScanEnv) : Nat → Nat → Option Nat
  | 0, _ => none
  | remaining + 1, p =>
    if !env.inUse p && env.bindOk p then some p
    else scanLoopAux env remaining (p + 1)

/-- `find_available_port(start_port, end_port, host)` (port_manager.py lines
135-159): linear scan of the half-open range `[start_port, end_port)`. -/
def find_available_port (env : ScanEnv) (start_port end_port : Nat) : Option Nat :=
  scanLoopAux env (end_port - start_port) start_port

/-! ## `NgrokManager.stop_tunnel` -/

/-- The mutable tunnel state of `NgrokManager`: `self.process` and
`self.tunnel_url` (ngrok_manager.py lines 35-36); the process handle is an
opaque token. -/
structure NgrokState where
  process : Option Nat
  tunnel_url : Option String
deriving DecidableEq, Repr

/-- What `self.process.wait(timeout=5)` does: the process exits within the
bounded wait, the wait times out (`TimeoutExpired`), or some other exception
is raised. -/
inductive WaitOutcome where
  | exited
  | timedOut
  | raisedOther
deriving DecidableEq, Repr

/-- The oracles consumed by one `stop_tunnel` call: whether `terminate()`
raises, the first `wait(timeout=5)` outcome, whether `kill()` raises, whether
the second `wait()` raises. -/
structure StopEnv where
  terminateRaises : Bool
  waitOutcome : WaitOutcome
  killRaises : Bool
  wait2Raises : Bool

/-- Result of a `stop_tunnel` call: the post state, plus ghost flags recording
whether the forceful `kill()` escalation was attempted and whether an error
was caught and logged. -/
structure StopResult where
  state : NgrokState
  escalated : Bool
  errorCaught : Bool
deriving DecidableEq, Repr

/-- `NgrokManager.stop_tunnel` (ngrok_manager.py lines 227-247): no-op when no
process is stored; otherwise terminate, wait with a 5-second bound, escalate
to `kill()` on timeout, and clear `self.process` and `self.tunnel_url` - but
the clearing statements sit inside the `try`, so any exception raised during
termination is caught, logged, and leaves the state unchanged. -/
def stop_tunnel (env : StopEnv) (st : NgrokState) : StopResult :=
  match st.process with
  | none => { state := st, escalated := false, errorCaught := false }
  | some _ =>
    if env.terminateRaises then { state := st, escalated := false, errorCaught := true }
    else
      match env.waitOutcome with
      | .exited => { state := { process := none, tunnel_url := none },
                     escalated := false, errorCaught := false }
      | .raisedOther => { state := st, escalated := false, errorCaught := true }
      | .timedOut =>
        if env.killRaises then { state := st, escalated := true, errorCaught := true }
        else if env.wait2Raises then { state := st, escalated := true, errorCaught := true }
        else { state := { process := none, tunnel_url := none },
               escalated := true, errorCaught := false }

/-! ## `trigger_webhook.github_webhook`

The JSON payload is modelled structurally; `request.json()` failing to parse
is `jsonBody = none`.  The I/O the handler performs (`make_adw_id`,
`ADWState.save`, `make_issue_comment`, `subprocess.Popen`) enters as oracle
data.  JSON `null` for the issue number is `number = none`; an absent `issue`
or `comment` object is `none`. -/

/-- The `"issue"` object of the payload. -/
structure IssueObj where
  number : Option Int
  body : Option String
deriving DecidableEq, Repr

/-- The `"comment"` object of the payload. -/
structure CommentObj where
  body : Option String
deriving DecidableEq, Repr

/-- The parsed webhook payload. -/
structure Payload where
  action : Option String
  issue : Option IssueObj
  comment : Option CommentObj
deriving DecidableEq, Repr

/-- An inbound request: the `X-GitHub-Event` header and the JSON body
(`none` when `await request.json()` raises). -/
structure WebhookRequest where
  eventHeader : Option String
  jsonBody : Option Payload
deriving DecidableEq, Repr

/-- Oracles for the handler's side effects: the two generated ids, and whether
`ADWState.save`, `make_issue_comment` and `subprocess.Popen` succeed. -/
structure HandlerEnv where
  tempId : String
  freshId : String
  saveOk : Bool
  commentOk : Bool
  popenOk : Bool

/-- The JSON body the handler returns (fields absent from a given return
statement are `none`). -/
structure WebhookResponse where
  status : String
  issue : Option Int
  adw_id : Option String
  workflow : Option String
  message : Option String
  reason : Option String
  logs : Option String
deriving DecidableEq, Repr

/-- Handler outcome with ghost instrumentation: whether a background job
process was spawned, and the final classified workflow (the value of the
`workflow` variable after the `adw_build` guard). -/
structure HandlerResult where
  response : WebhookResponse
  launched : Bool
  classified : Option String
deriving DecidableEq, Repr

/-- Python's ASCII case folding: `str.lower()` restricted to ASCII letters
(all content the handler folds is compared only against the ASCII pattern
`"adw_"`). -/
def asciiLower (s : String) : String := String.mk (s.data.map Char.toLower)

/-- Split on single spaces (Python's `s.split(" ")`, empty pieces kept). -/
def splitOnSpace (l : List Char) : List (List Char) :=
  l.foldr (fun c acc =>
    if c = ' ' then [] :: acc
    else match acc with
      | [] => [[c]]
      | t :: ts => (c :: t) :: ts) [[]]

/-- Python truthiness of an optional string (`None` and `""` are falsy). -/
def truthyStr : Option String → Bool
  | none => false
  | some s => !(s == "")

/-- Python truthiness of an optional integer (`None` and `0` are falsy). -/
def truthyNum : Option Int → Bool
  | none => false
  | some n => !(n == 0)

/-- Whether `pat` occurs as a contiguous segment of `l`. -/
def listIsInfixOf (pat : List Char) : List Char → Bool
  | [] => pat.isEmpty
  | c :: t => pat.isPrefixOf (c :: t) || listIsInfixOf pat t

/-- Python's `pat in s` substring test. -/
def containsSub (s pat : String) : Bool := listIsInfixOf pat.data s.data

/-- `ADW_BOT_IDENTIFIER` (trigger_webhook.py line 165). -/
def ADW_BOT_IDENTIFIER : String := "[ADW-BOT]"

/-- `AVAILABLE_WORKFLOWS` (trigger_webhook.py lines 168-174). -/
def AVAILABLE_WORKFLOWS : List String :=
  ["adw_plan", "adw_build", "adw_test", "adw_plan_build", "adw_plan_build_test"]

/-- Scan a token list for an explicit job identifier following a `job-id:`
tag. -/
def findJobId : List String → Option String
  | [] => none
  | "job-id:" :: v :: _ => some v
  | _ :: rest => findJobId rest

/-- Modelled from the spec: `extract_adw_info` is defined in
`adw_modules/workflow_ops.py`, which is not among the provided sources; only
its call sites in trigger_webhook.py are.  Following spec section 4.4 rules 3
and scenarios A, C and D: the content is scanned for a workflow-name token
(whole whitespace-separated token matching one of `AVAILABLE_WORKFLOWS`), and
parsed for an optional explicit job identifier written alongside as
`job-id: <id>`.  The temporary-id argument is used by the real function only
for logging during classification. -/
def extract_adw_info (content : String) (tempId : String) :
    Option String × Option String :=
  let toks := (splitOnSpace content.data).map String.mk
  (toks.find? (fun t => AVAILABLE_WORKFLOWS.contains t), findJobId toks)

/-- The classification block of the handler (trigger_webhook.py lines
199-235): decide `(workflow, provided_adw_id)` from the event type, action,
issue number and content.  Only an issue-opened or comment-created event with
a truthy issue number is eligible; the bot-marker guard exists only in the
comment branch; content is handed to the workflow extractor only when it
contains `"adw_"` case-insensitively. -/
def classify_raw (extract : String → String → Option String × Option String)
    (tempId eventType action : String) (issueNumber : Option Int)
    (issueBody commentBody : String) : Option String × Option String :=
  if eventType == "issues" && action == "opened" && truthyNum issueNumber then
    if containsSub (asciiLower issueBody) "adw_" then extract issueBody tempId
    else (none, none)
  else if eventType == "issue_comment" && action == "created" && truthyNum issueNumber then
    if containsSub commentBody ADW_BOT_IDENTIFIER then (none, none)
    else if containsSub (asciiLower commentBody) "adw_" then extract commentBody tempId
    else (none, none)
  else (none, none)

/-- The `adw_build` guard (trigger_webhook.py lines 237-240): an `adw_build`
classification without a truthy provided id is reset to no workflow. -/
def apply_build_guard (wp : Option String × Option String) :
    Option String × Option String :=
  if wp.1 == some "adw_build" && !truthyStr wp.2 then (none, wp.2) else wp

/-- `github_webhook(request)` (trigger_webhook.py lines 179-315).  The whole
body runs under `try`; a body that fails to parse, a failing `ADWState.save`
or a failing `subprocess.Popen` raise into the outer handler, which answers
with the `"error"` body; a failing `make_issue_comment` is caught by its own
inner `try` and does not stop the launch.  The final `workflow` decides
between the `"accepted"` launch path and the `"ignored"` path. -/
def github_webhook (extract : String → String → Option String × Option String)
    (env : HandlerEnv) (req : WebhookRequest) : HandlerResult :=
  match req.jsonBody with
  | none =>
    { response := { status := "error", issue := none, adw_id := none, workflow := none,
                    message := some "Internal error processing webhook", reason := none,
                    logs := none },
      launched := false, classified := none }
  | some payload =>
    let eventType := req.eventHeader.getD ""
    let action := payload.action.getD ""
    let issueNumber := payload.issue.bind IssueObj.number
    let issueBody := (payload.issue.bind IssueObj.body).getD ""
    let commentBody := (payload.comment.bind CommentObj.body).getD ""
    let wp := apply_build_guard
      (classify_raw extract env.tempId eventType action issueNumber issueBody commentBody)
    match wp.1 with
    | some wf =>
      if wf == "" then
        { response := { status := "ignored", issue := none, adw_id := none, workflow := none,
                        message := none,
                        reason := some ("Not a triggering event (event=" ++ eventType ++
                          ", action=" ++ action ++ ")"),
                        logs := none },
          launched := false, classified := wp.1 }
      else
        let adwId := match wp.2 with
          | some p => if p == "" then env.freshId else p
          | none => env.freshId
        if truthyStr wp.2 && !env.saveOk then
          { response := { status := "error", issue := none, adw_id := none, workflow := none,
                          message := some "Internal error processing webhook", reason := none,
                          logs := none },
            launched := false, classified := wp.1 }
        else if !env.popenOk then
          { response := { status := "error", issue := none, adw_id := none, workflow := none,
                          message := some "Internal error processing webhook", reason := none,
                          logs := none },
            launched := false, classified := wp.1 }
        else
          let issueStr := match issueNumber with
            | some n => toString n
            | none => "None"
          let triggerReason :=
            if eventType == "issues" then "New issue with " ++ wf ++ " workflow"
            else "Comment with " ++ wf ++ " workflow"
          { response := { status := "accepted", issue := issueNumber, adw_id := some adwId,
                          workflow := some wf,
                          message := some ("ADW " ++ wf ++ " workflow triggered for issue #"
                            ++ issueStr),
                          reason := some triggerReason,
                          logs := some ("agents/" ++ adwId ++ "/" ++ wf ++ "/") },
            launched := true, classified := wp.1 }
    | none =>
      { response := { status := "ignored", issue := none, adw_id := none, workflow := none,
                      message := none,
                      reason := some ("Not a triggering event (event=" ++ eventType ++
                        ", action=" ++ action ++ ")"),
                      logs := none },
        launched := false, classified := none }


/-! ## Concrete fixtures used by counterexamples and witnesses -/

/-- An all-succeeding side-effect environment for the handler. -/
def envOk : HandlerEnv :=
  { tempId := "tmp12345", freshId := "new12345", saveOk := true, commentOk := true,
    popenOk := true }

/-- An issue-opened event whose issue body carries the bot marker and a
workflow token. -/
def reqBotIssue : WebhookRequest :=
  { eventHeader := some "issues",
    jsonBody := some { action := some "opened",
                       issue := some { number := some 1, body := some "[ADW-BOT] adw_plan" },
                       comment := none } }

/-- An eligible comment event carrying a workflow token, with no signature
header anywhere in sight. -/
def reqUnsigned : WebhookRequest :=
  { eventHeader := some "issue_comment",
    jsonBody := some { action := some "created",
                       issue := some { number := some 5, body := none },
                       comment := some { body := some "adw_plan" } } }

/-- An eligible comment event requesting `adw_build` with no job identifier. -/
def reqBuildNoId : WebhookRequest :=
  { eventHeader := some "issue_comment",
    jsonBody := some { action := some "created",
                       issue := some { number := some 2, body := none },
                       comment := some { body := some "adw_build" } } }

/-- An eligible-looking issue event whose issue object has a null number but a
workflow token in the body. -/
def reqNoNumber : WebhookRequest :=
  { eventHeader := some "issues",
    jsonBody := some { action := some "opened",
                       issue := some { number := none, body := some "adw_plan" },
                       comment := none } }

/-- A request whose body failed to parse as JSON. -/
def reqMalformed : WebhookRequest := { eventHeader := some "issues", jsonBody := none }

/-- A probe environment whose TCP connect always raises. -/
def connectEnvRaises : ConnectEnv := { connectEx := fun _ _ => .error () }

/-- A scan environment: port 8000 probe-busy, port 8001 free and bindable. -/
def scanEnvEx : ScanEnv := { inUse := fun p => p == 8000, bindOk := fun p => p == 8001 }

/-- A reclaim environment whose owner refuses the termination signal with a
permission error. -/
def killEnvPerm : KillEnv :=
  { lookup := fun _ => some 42, killResult := fun _ => .permissionDenied,
    portInUseAfter := fun _ => true }

/-- A reclaim environment with no owning process. -/
def killEnvFree : KillEnv :=
  { lookup := fun _ => none, killResult := fun _ => .ok, portInUseAfter := fun _ => false }

/-- A tunnel state with a live process and a public URL. -/
def ngrokStateLive : NgrokState := { process := some 7, tunnel_url := some "https://x.ngrok.io" }

/-- A stop environment in which `terminate()` raises. -/
def stopEnvRaises : StopEnv :=
  { terminateRaises := true, waitOutcome := .exited, killRaises := false, wait2Raises := false }

/-- A stop environment in which everything succeeds within the bounded wait. -/
def stopEnvHappy : StopEnv :=
  { terminateRaises := false, waitOutcome := .exited, killRaises := false, wait2Raises := false }

/-! ## Claim theorems: the probe, the scan, the handler -/

/-- C9: `is_port_in_use` is total and fails open: whenever the connect probe
raises, the function returns `false` (the port is reported free), and it
reports in-use exactly when the probe returns 0. -/
theorem is_port_in_use_fails_open (env : ConnectEnv) (port : Nat) (host : String) :
    (∀ u : Unit, env.connectEx host port = .error u → is_port_in_use env port host = false)
    ∧ (is_port_in_use env port host = true ↔ env.connectEx host port = .ok 0) := by
  constructor
  · intro u h
    simp [is_port_in_use, h]
  · unfold is_port_in_use
    cases h : env.connectEx host port with
    | ok r => simp [beq_iff_eq]
    | error e => simp

/-- Witness for C9 at a concrete raising probe. -/
theorem is_port_in_use_fails_open_witness :
    is_port_in_use connectEnvRaises 8001 "127.0.0.1" = false :=
  (is_port_in_use_fails_open connectEnvRaises 8001 "127.0.0.1").1 () rfl

/-- The scan loop is sound: a returned port lies within the scanned window,
its probe said free, and its confirming bind succeeded; a `none` means every
port in the window was probe-busy or failed to bind. -/
theorem scanLoopAux_spec (env : ScanEnv) :
    ∀ (r p0 : Nat),
      (∀ p, scanLoopAux env r p0 = some p →
        p0 ≤ p ∧ p < p0 + r ∧ env.inUse p = false ∧ env.bindOk p = true)
      ∧ (scanLoopAux env r p0 = none →
        ∀ p, p0 ≤ p → p < p0 + r → env.inUse p = true ∨ env.bindOk p = false) := by
  intro r
  induction r with
  | zero =>
    intro p0
    refine ⟨fun p h => by simp [scanLoopAux] at h, fun _ p h1 h2 => by omega⟩
  | succ n ih =>
    intro p0
    constructor
    · intro p h
      unfold scanLoopAux at h
      by_cases hc : (!env.inUse p0 && env.bindOk p0) = true
      · rw [if_pos hc] at h
        cases h
        simp only [Bool.and_eq_true, Bool.not_eq_true'] at hc
        exact ⟨Nat.le_refl _, by omega, hc.1, hc.2⟩
      · rw [if_neg hc] at h
        obtain ⟨h1, h2, h3, h4⟩ := (ih (p0 + 1)).1 p h
        exact ⟨by omega, by omega, h3, h4⟩
    · intro h p hp1 hp2
      unfold scanLoopAux at h
      by_cases hc : (!env.inUse p0 && env.bindOk p0) = true
      · rw [if_pos hc] at h
        cases h
      · rw [if_neg hc] at h
        rcases Nat.eq_or_lt_of_le hp1 with heq | hlt
        · have hp : p = p0 := heq.symm
          subst hp
          simp only [Bool.and_eq_true, Bool.not_eq_true'] at hc
          rcases Bool.eq_false_or_eq_true (env.inUse p) with hu | hu
          · left
            exact hu
          · right
            rcases Bool.eq_false_or_eq_true (env.bindOk p) with hbi | hbi
            · exact absurd ⟨hu, hbi⟩ hc
            · exact hbi
        · exact (ih (p0 + 1)).2 h p (by omega) (by omega)

/-- C8: `find_available_port(start, end)` returns only a port `p` with
`start ≤ p < end` whose probe reported free and whose confirming bind
succeeded immediately before returning, and returns `none` only when every
port of the half-open range was probe-busy or unbindable. -/
theorem find_available_port_spec (env : ScanEnv) (start_port end_port : Nat) :
    (∀ p, find_available_port env start_port end_port = some p →
      start_port ≤ p ∧ p < end_port ∧ env.inUse p = false ∧ env.bindOk p = true)
    ∧ (find_available_port env start_port end_port = none →
      ∀ p, start_port ≤ p → p < end_port → env.inUse p = true ∨ env.bindOk p = false) := by
  have h := scanLoopAux_spec env (end_port - start_port) start_port
  constructor
  · intro p hp
    obtain ⟨h1, h2, h3, h4⟩ := h.1 p hp
    exact ⟨h1, by omega, h3, h4⟩
  · intro hn p h1 h2
    exact h.2 hn p h1 (by omega)

/-- Witness for C8 at a concrete scan environment. -/
theorem find_available_port_spec_witness :
    8000 ≤ 8001 ∧ 8001 < 8100 ∧ scanEnvEx.inUse 8001 = false ∧ scanEnvEx.bindOk 8001 = true :=
  (find_available_port_spec scanEnvEx 8000 8100).1 8001 (by decide)

/-- C10: a payload without an issue number (no issue object, or a missing or
null `number` field) is ignored: no workflow is classified and no job is
launched, whatever the event type, action and content. -/
theorem github_webhook_missing_issue_number_ignored
    (extract : String → String → Option String × Option String)
    (env : HandlerEnv) (req : WebhookRequest) (payload : Payload)
    (hb : req.jsonBody = some payload)
    (hn : payload.issue.bind IssueObj.number = none) :
    (github_webhook extract env req).response.status = "ignored"
    ∧ (github_webhook extract env req).launched = false
    ∧ (github_webhook extract env req).classified = none := by
  unfold github_webhook
  rw [hb]
  have ht : truthyNum (payload.issue.bind IssueObj.number) = false := by
    rw [hn]
    rfl
  simp [classify_raw, apply_build_guard, ht]

/-- Witness for C10: an issue-opened event with a workflow token in the body
but a null issue number is ignored. -/
theorem github_webhook_missing_issue_number_ignored_witness :
    (github_webhook extract_adw_info envOk reqNoNumber).response.status = "ignored" :=
  (github_webhook_missing_issue_number_ignored extract_adw_info envOk reqNoNumber
    { action := some "opened", issue := some { number := none, body := some "adw_plan" },
      comment := none } rfl rfl).1

/-- C2 (amended): for a newly created comment, content containing the bot
marker always classifies to none - no workflow is classified and no job is
launched, whether or not the content also carries a workflow token, and
whatever the extractor would have said. -/
theorem github_webhook_comment_bot_marker_ignored
    (extract : String → String → Option String × Option String)
    (env : HandlerEnv) (req : WebhookRequest) (payload : Payload)
    (hb : req.jsonBody = some payload)
    (he : req.eventHeader = some "issue_comment")
    (ha : payload.action = some "created")
    (hm : containsSub ((payload.comment.bind CommentObj.body).getD "") ADW_BOT_IDENTIFIER
      = true) :
    (github_webhook extract env req).response.status = "ignored"
    ∧ (github_webhook extract env req).launched = false
    ∧ (github_webhook extract env req).classified = none := by
  unfold github_webhook
  rw [hb]
  rcases Bool.eq_false_or_eq_true (truthyNum (payload.issue.bind IssueObj.number)) with ht | ht
  · simp [classify_raw, apply_build_guard, he, ha, ht, hm]
  · simp [classify_raw, apply_build_guard, he, ha, ht, hm]

/-- Witness for the amended C2 at a concrete bot-marked comment event. -/
theorem github_webhook_comment_bot_marker_ignored_witness :
    (github_webhook extract_adw_info envOk
      { eventHeader := some "issue_comment",
        jsonBody := some { action := some "created",
                           issue := some { number := some 3, body := none },
                           comment := some { body := some "[ADW-BOT] adw_plan done" } } }
      ).response.status = "ignored" :=
  (github_webhook_comment_bot_marker_ignored extract_adw_info envOk _
    { action := some "created", issue := some { number := some 3, body := none },
      comment := some { body := some "[ADW-BOT] adw_plan done" } }
    rfl rfl rfl (by decide)).1

/-- C2 counterexample: an issue-opened event whose issue body contains both
the bot marker and a workflow token is not suppressed - the handler classifies
`adw_plan` and launches the job, because the bot-marker guard exists only in
the comment branch (trigger_webhook.py lines 204-215 versus 225-228). -/
theorem github_webhook_issue_bot_marker_not_suppressed :
    containsSub "[ADW-BOT] adw_plan" ADW_BOT_IDENTIFIER = true
    ∧ (github_webhook extract_adw_info envOk reqBotIssue).classified = some "adw_plan"
    ∧ (github_webhook extract_adw_info envOk reqBotIssue).launched = true
    ∧ (github_webhook extract_adw_info envOk reqBotIssue).response.status = "accepted" := by
  decide

/-- C7: whenever classification resolves an event to the `adw_build` workflow
with no truthy job identifier alongside, the handler resets the decision to no
workflow: the response is "ignored", nothing is launched, and no identifier is
generated for it (trigger_webhook.py lines 237-240). -/
theorem github_webhook_adw_build_requires_id
    (extract : String → String → Option String × Option String)
    (env : HandlerEnv) (req : WebhookRequest) (payload : Payload) (p : Option String)
    (hb : req.jsonBody = some payload)
    (hc : classify_raw extract env.tempId (req.eventHeader.getD "") (payload.action.getD "")
      (payload.issue.bind IssueObj.number) ((payload.issue.bind IssueObj.body).getD "")
      ((payload.comment.bind CommentObj.body).getD "") = (some "adw_build", p))
    (hp : truthyStr p = false) :
    (github_webhook extract env req).response.status = "ignored"
    ∧ (github_webhook extract env req).launched = false
    ∧ (github_webhook extract env req).classified = none
    ∧ (github_webhook extract env req).response.adw_id = none := by
  unfold github_webhook
  rw [hb]
  simp [hc, apply_build_guard, hp]

/-- Witness for C7: a comment saying exactly `adw_build`, with no job
identifier, is ignored. -/
theorem github_webhook_adw_build_requires_id_witness :
    (github_webhook extract_adw_info envOk reqBuildNoId).response.status = "ignored" :=
  (github_webhook_adw_build_requires_id extract_adw_info envOk reqBuildNoId
    { action := some "created", issue := some { number := some 2, body := none },
      comment := some { body := some "adw_build" } }
    none rfl (by decide) rfl).1

/-- C1: the handler performs no signature validation at all.  For any raw
body, `validate_github_signature` rejects a request with no signature header
under the configured secret, yet the handler - which never consults the
header, the secret or `validate_github_signature` - classifies the very same
unsigned request and launches its job. -/
theorem github_webhook_no_signature_check (body : List Nat) :
    validate_github_signature body none "s3cret" = false
    ∧ (github_webhook extract_adw_info envOk reqUnsigned).response.status = "accepted"
    ∧ (github_webhook extract_adw_info envOk reqUnsigned).launched = true
    ∧ (github_webhook extract_adw_info envOk reqUnsigned).classified = some "adw_plan" := by
  exact ⟨rfl, by decide, by decide, by decide⟩

/-- C3: every response body the handler produces carries a status of
"accepted", "ignored" or "error" - the handler is a total function, no
exception escapes it - and an unparseable body in particular yields the
"error" outcome. -/
theorem github_webhook_total_status
    (extract : String → String → Option String × Option String)
    (env : HandlerEnv) (req : WebhookRequest) :
    ((github_webhook extract env req).response.status = "accepted"
      ∨ (github_webhook extract env req).response.status = "ignored"
      ∨ (github_webhook extract env req).response.status = "error")
    ∧ (req.jsonBody = none → (github_webhook extract env req).response.status = "error") := by
  unfold github_webhook
  cases hb : req.jsonBody with
  | none => exact ⟨Or.inr (Or.inr rfl), fun _ => rfl⟩
  | some payload =>
    constructor
    · dsimp only
      split
      · split
        · exact Or.inr (Or.inl rfl)
        · split
          · exact Or.inr (Or.inr rfl)
          · split
            · exact Or.inr (Or.inr rfl)
            · exact Or.inl rfl
      · exact Or.inr (Or.inl rfl)
    · intro h
      exact Option.noConfusion h

/-- Witness for C3: a request whose body fails to parse is answered with the
"error" status. -/
theorem github_webhook_total_status_witness :
    (github_webhook extract_adw_info envOk reqMalformed).response.status = "error" :=
  (github_webhook_total_status extract_adw_info envOk reqMalformed).2 rfl

/-! ## Claim theorems: the reclaim loop and the tunnel stop -/

/-- Loop step: no owning process found. -/
theorem killLoopAux_lookup_none (env : KillEnv) (force : Bool) (n i : Nat)
    (hl : env.lookup i = none) :
    killLoopAux env force (n + 1) i = { result := true, iterations := 1, signals := [] } := by
  unfold killLoopAux
  rw [hl]

/-- Loop step: the owner was already gone when signalled. -/
theorem killLoopAux_noSuch (env : KillEnv) (force : Bool) (n i : Nat) (pid : Nat)
    (hl : env.lookup i = some pid) (hk : env.killResult i = .noSuchProcess) :
    killLoopAux env force (n + 1) i =
      { result := true, iterations := 1, signals := [(i, sigFor force i)] } := by
  unfold killLoopAux
  rw [hl]
  simp only [hk]

/-- Loop step: the signal was refused with a permission error. -/
theorem killLoopAux_perm (env : KillEnv) (force : Bool) (n i : Nat) (pid : Nat)
    (hl : env.lookup i = some pid) (hk : env.killResult i = .permissionDenied) :
    killLoopAux env force (n + 1) i =
      { result := false, iterations := 1, signals := [(i, sigFor force i)] } := by
  unfold killLoopAux
  rw [hl]
  simp only [hk]

/-- Loop step: the signal was delivered and the port was then observed free. -/
theorem killLoopAux_freed (env : KillEnv) (force : Bool) (n i : Nat) (pid : Nat)
    (hl : env.lookup i = some pid) (hk : env.killResult i = .ok)
    (hp : env.portInUseAfter i = false) :
    killLoopAux env force (n + 1) i =
      { result := true, iterations := 1, signals := [(i, sigFor force i)] } := by
  unfold killLoopAux
  rw [hl]
  simp only [hk, hp]
  simp

/-- Loop step: the signal was delivered but the port was still in use. -/
theorem killLoopAux_still_used (env : KillEnv) (force : Bool) (n i : Nat) (pid : Nat)
    (hl : env.lookup i = some pid) (hk : env.killResult i = .ok)
    (hp : env.portInUseAfter i = true) :
    killLoopAux env force (n + 1) i =
      { result := (killLoopAux env force n (i + 1)).result,
        iterations := (killLoopAux env force n (i + 1)).iterations + 1,
        signals := (i, sigFor force i) :: (killLoopAux env force n (i + 1)).signals } := by
  conv_lhs => rw [killLoopAux]
  rw [hl]
  simp [hk, hp]

/-- Loop step: `os.kill` raised some other error. -/
theorem killLoopAux_other (env : KillEnv) (force : Bool) (n i : Nat) (pid : Nat)
    (hl : env.lookup i = some pid) (hk : env.killResult i = .otherError) :
    killLoopAux env force (n + 1) i =
      { result := (killLoopAux env force n (i + 1)).result,
        iterations := (killLoopAux env force n (i + 1)).iterations + 1,
        signals := (i, sigFor force i) :: (killLoopAux env force n (i + 1)).signals } := by
  conv_lhs => rw [killLoopAux]
  rw [hl]
  simp [hk]

/-- Signal discipline of the reclaim loop: every signal an iteration sent
follows `SIGKILL if force or attempt > 0 else SIGTERM`. -/
theorem killLoopAux_signals (env : KillEnv) (force : Bool) :
    ∀ (r i : Nat) (ks : Nat × Sig), ks ∈ (killLoopAux env force r i).signals →
      ks.2 = sigFor force ks.1 := by
  intro r
  induction r with
  | zero =>
    intro i ks h
    simp [killLoopAux] at h
  | succ n ih =>
    intro i ks h
    cases hl : env.lookup i with
    | none =>
      rw [killLoopAux_lookup_none env force n i hl] at h
      simp at h
    | some pid =>
      cases hk : env.killResult i with
      | noSuchProcess =>
        rw [killLoopAux_noSuch env force n i pid hl hk] at h
        simp at h
        rw [h]
      | permissionDenied =>
        rw [killLoopAux_perm env force n i pid hl hk] at h
        simp at h
        rw [h]
      | ok =>
        cases hp : env.portInUseAfter i with
        | false =>
          rw [killLoopAux_freed env force n i pid hl hk hp] at h
          simp at h
          rw [h]
        | true =>
          rw [killLoopAux_still_used env force n i pid hl hk hp] at h
          simp at h
          rcases h with h | h
          · rw [h]
          · exact ih (i + 1) ks h
      | otherError =>
        rw [killLoopAux_other env force n i pid hl hk] at h
        simp at h
        rcases h with h | h
        · rw [h]
        · exact ih (i + 1) ks h

/-- The reclaim loop returns `true` exactly when some attempt within the
remaining budget classifies as a success and every earlier attempt was a plain
retry. -/
theorem killLoopAux_result_true (env : KillEnv) (force : Bool) :
    ∀ (r i : Nat), (killLoopAux env force r i).result = true ↔
      ∃ k, k < r ∧ attemptStep env (i + k) = .succeed ∧
        ∀ j, j < k → attemptStep env (i + j) = .retry := by
  intro r
  induction r with
  | zero =>
    intro i
    simp [killLoopAux]
  | succ n ih =>
    intro i
    have succeed_iff : attemptStep env i = .succeed →
        ((true : Bool) = true ↔ ∃ k, k < n + 1 ∧ attemptStep env (i + k) = .succeed ∧
          ∀ j, j < k → attemptStep env (i + j) = .retry) := by
      intro hstep
      constructor
      · intro _
        exact ⟨0, by omega, by rw [Nat.add_zero]; exact hstep, fun j hj => by omega⟩
      · intro _
        rfl
    have retry_iff : attemptStep env i = .retry →
        ((killLoopAux env force n (i + 1)).result = true ↔
          ∃ k, k < n + 1 ∧ attemptStep env (i + k) = .succeed ∧
            ∀ j, j < k → attemptStep env (i + j) = .retry) := by
      intro hstep
      constructor
      · intro h
        obtain ⟨k, hkr, hs, hr⟩ := (ih (i + 1)).mp h
        refine ⟨k + 1, by omega, ?_, ?_⟩
        · have e : i + (k + 1) = i + 1 + k := by omega
          rw [e]
          exact hs
        · intro j hj
          cases j with
          | zero =>
            rw [Nat.add_zero]
            exact hstep
          | succ j0 =>
            have e : i + (j0 + 1) = i + 1 + j0 := by omega
            rw [e]
            exact hr j0 (by omega)
      · rintro ⟨k, hkr, hs, hr⟩
        cases k with
        | zero =>
          rw [Nat.add_zero] at hs
          rw [hstep] at hs
          exact AttemptStep.noConfusion hs
        | succ k0 =>
          apply (ih (i + 1)).mpr
          refine ⟨k0, by omega, ?_, ?_⟩
          · have e : i + 1 + k0 = i + (k0 + 1) := by omega
            rw [e]
            exact hs
          · intro j hj
            have e : i + 1 + j = i + (j + 1) := by omega
            rw [e]
            exact hr (j + 1) (by omega)
    cases hl : env.lookup i with
    | none =>
      rw [killLoopAux_lookup_none env force n i hl]
      exact succeed_iff (by simp [attemptStep, hl])
    | some pid =>
      cases hk : env.killResult i with
      | noSuchProcess =>
        rw [killLoopAux_noSuch env force n i pid hl hk]
        exact succeed_iff (by simp [attemptStep, hl, hk])
      | permissionDenied =>
        rw [killLoopAux_perm env force n i pid hl hk]
        have hstep : attemptStep env i = .abort := by simp [attemptStep, hl, hk]
        constructor
        · intro hfalse
          exact absurd hfalse (by simp)
        · rintro ⟨k, hkr, hs, hr⟩
          cases k with
          | zero =>
            rw [Nat.add_zero] at hs
            rw [hstep] at hs
            exact AttemptStep.noConfusion hs
          | succ k0 =>
            have h0 := hr 0 (by omega)
            rw [Nat.add_zero] at h0
            rw [hstep] at h0
            exact AttemptStep.noConfusion h0
      | ok =>
        cases hp : env.portInUseAfter i with
        | false =>
          rw [killLoopAux_freed env force n i pid hl hk hp]
          exact succeed_iff (by simp [attemptStep, hl, hk, hp])
        | true =>
          rw [killLoopAux_still_used env force n i pid hl hk hp]
          exact retry_iff (by simp [attemptStep, hl, hk, hp])
      | otherError =>
        rw [killLoopAux_other env force n i pid hl hk]
        exact retry_iff (by simp [attemptStep, hl, hk])

/-- The reclaim loop returns `false` exactly when either some attempt within
the budget aborted with a permission error (all earlier ones plain retries),
or the whole budget was consumed by plain retries. -/
theorem killLoopAux_result_false (env : KillEnv) (force : Bool) :
    ∀ (r i : Nat), (killLoopAux env force r i).result = false ↔
      (∃ k, k < r ∧ attemptStep env (i + k) = .abort ∧
        ∀ j, j < k → attemptStep env (i + j) = .retry)
      ∨ ∀ k, k < r → attemptStep env (i + k) = .retry := by
  intro r
  induction r with
  | zero =>
    intro i
    simp [killLoopAux]
  | succ n ih =>
    intro i
    cases hl0 : env.lookup i with
    | none =>
      rw [killLoopAux_lookup_none env force n i hl0]
      have hstep : attemptStep env i = .succeed := by simp [attemptStep, hl0]
      constructor
      · intro hfalse
        exact absurd hfalse (by simp)
      · rintro (⟨k, hkr, hs, hr⟩ | hall)
        · cases k with
          | zero =>
            rw [Nat.add_zero] at hs
            rw [hstep] at hs
            exact AttemptStep.noConfusion hs
          | succ k0 =>
            have h0 := hr 0 (by omega)
            rw [Nat.add_zero] at h0
            rw [hstep] at h0
            exact AttemptStep.noConfusion h0
        · have h0 := hall 0 (by omega)
          rw [Nat.add_zero] at h0
          rw [hstep] at h0
          exact AttemptStep.noConfusion h0
    | some pid =>
      cases hk0 : env.killResult i with
      | noSuchProcess =>
        rw [killLoopAux_noSuch env force n i pid hl0 hk0]
        have hstep : attemptStep env i = .succeed := by simp [attemptStep, hl0, hk0]
        constructor
        · intro hfalse
          exact absurd hfalse (by simp)
        · rintro (⟨k, hkr, hs, hr⟩ | hall)
          · cases k with
            | zero =>
              rw [Nat.add_zero] at hs
              rw [hstep] at hs
              exact AttemptStep.noConfusion hs
            | succ k0 =>
              have h0 := hr 0 (by omega)
              rw [Nat.add_zero] at h0
              rw [hstep] at h0
              exact AttemptStep.noConfusion h0
          · have h0 := hall 0 (by omega)
            rw [Nat.add_zero] at h0
            rw [hstep] at h0
            exact AttemptStep.noConfusion h0
      | permissionDenied =>
        rw [killLoopAux_perm env force n i pid hl0 hk0]
        have hstep : attemptStep env i = .abort := by simp [attemptStep, hl0, hk0]
        constructor
        · intro _
          exact Or.inl ⟨0, by omega, by rw [Nat.add_zero]; exact hstep, fun j hj => by omega⟩
        · intro _
          rfl
      | ok =>
        cases hp0 : env.portInUseAfter i with
        | false =>
          rw [killLoopAux_freed env force n i pid hl0 hk0 hp0]
          have hstep : attemptStep env i = .succeed := by simp [attemptStep, hl0, hk0, hp0]
          constructor
          · intro hfalse
            exact absurd hfalse (by simp)
          · rintro (⟨k, hkr, hs, hr⟩ | hall)
            · cases k with
              | zero =>
                rw [Nat.add_zero] at hs
                rw [hstep] at hs
                exact AttemptStep.noConfusion hs
              | succ k0 =>
                have h0 := hr 0 (by omega)
                rw [Nat.add_zero] at h0
                rw [hstep] at h0
                exact AttemptStep.noConfusion h0
            · have h0 := hall 0 (by omega)
              rw [Nat.add_zero] at h0
              rw [hstep] at h0
              exact AttemptStep.noConfusion h0
        | true =>
          rw [killLoopAux_still_used env force n i pid hl0 hk0 hp0]
          have hstep : attemptStep env i = .retry := by simp [attemptStep, hl0, hk0, hp0]
          constructor
          · intro h
            rcases (ih (i + 1)).mp h with ⟨k, hkr, hs, hr⟩ | hall
            · refine Or.inl ⟨k + 1, by omega, ?_, ?_⟩
              · have e : i + (k + 1) = i + 1 + k := by omega
                rw [e]
                exact hs
              · intro j hj
                cases j with
                | zero =>
                  rw [Nat.add_zero]
                  exact hstep
                | succ j0 =>
                  have e : i + (j0 + 1) = i + 1 + j0 := by omega
                  rw [e]
                  exact hr j0 (by omega)
            · refine Or.inr fun k hkr => ?_
              cases k with
              | zero =>
                rw [Nat.add_zero]
                exact hstep
              | succ k0 =>
                have e : i + (k0 + 1) = i + 1 + k0 := by omega
                rw [e]
                exact hall k0 (by omega)
          · rintro (⟨k, hkr, hs, hr⟩ | hall)
            · cases k with
              | zero =>
                rw [Nat.add_zero] at hs
                rw [hstep] at hs
                exact AttemptStep.noConfusion hs
              | succ k0 =>
                apply (ih (i + 1)).mpr
                refine Or.inl ⟨k0, by omega, ?_, ?_⟩
                · have e : i + 1 + k0 = i + (k0 + 1) := by omega
                  rw [e]
                  exact hs
                · intro j hj
                  have e : i + 1 + j = i + (j + 1) := by omega
                  rw [e]
                  exact hr (j + 1) (by omega)
            · apply (ih (i + 1)).mpr
              refine Or.inr fun k hkr => ?_
              have e : i + 1 + k = i + (k + 1) := by omega
              rw [e]
              exact hall (k + 1) (by omega)
      | otherError =>
        rw [killLoopAux_other env force n i pid hl0 hk0]
        have hstep : attemptStep env i = .retry := by simp [attemptStep, hl0, hk0]
        constructor
        · intro h
          rcases (ih (i + 1)).mp h with ⟨k, hkr, hs, hr⟩ | hall
          · refine Or.inl ⟨k + 1, by omega, ?_, ?_⟩
            · have e : i + (k + 1) = i + 1 + k := by omega
              rw [e]
              exact hs
            · intro j hj
              cases j with
              | zero =>
                rw [Nat.add_zero]
                exact hstep
              | succ j0 =>
                have e : i + (j0 + 1) = i + 1 + j0 := by omega
                rw [e]
                exact hr j0 (by omega)
          · refine Or.inr fun k hkr => ?_
            cases k with
            | zero =>
              rw [Nat.add_zero]
              exact hstep
            | succ k0 =>
              have e : i + (k0 + 1) = i + 1 + k0 := by omega
              rw [e]
              exact hall k0 (by omega)
        · rintro (⟨k, hkr, hs, hr⟩ | hall)
          · cases k with
            | zero =>
              rw [Nat.add_zero] at hs
              rw [hstep] at hs
              exact AttemptStep.noConfusion hs
            | succ k0 =>
              apply (ih (i + 1)).mpr
              refine Or.inl ⟨k0, by omega, ?_, ?_⟩
              · have e : i + 1 + k0 = i + (k0 + 1) := by omega
                rw [e]
                exact hs
              · intro j hj
                have e : i + 1 + j = i + (j + 1) := by omega
                rw [e]
                exact hr (j + 1) (by omega)
          · apply (ih (i + 1)).mpr
            refine Or.inr fun k hkr => ?_
            have e : i + 1 + k = i + (k + 1) := by omega
            rw [e]
            exact hall (k + 1) (by omega)

/-- C5 (amended): the reclaim returns true as soon as an attempt finds no
owner, finds the owner already gone, or observes the port free after its
signal, with all earlier attempts plain retries; it returns false either when
a permission-denied error aborts the loop at once - without consuming the
remaining attempts - or after all `max_retries` attempts were plain retries;
and every signal sent is SIGTERM on the first attempt and SIGKILL on later
attempts or when force is set. -/
theorem kill_process_on_port_spec (env : KillEnv) (force : Bool) (max_retries : Nat) :
    (kill_process_on_port env force max_retries = true ↔
      ∃ k, k < max_retries ∧ attemptStep env k = .succeed ∧
        ∀ j, j < k → attemptStep env j = .retry)
    ∧ (kill_process_on_port env force max_retries = false ↔
      (∃ k, k < max_retries ∧ attemptStep env k = .abort ∧
        ∀ j, j < k → attemptStep env j = .retry)
      ∨ ∀ k, k < max_retries → attemptStep env k = .retry)
    ∧ (∀ ks : Nat × Sig, ks ∈ (kill_process_on_port_run env force max_retries).signals →
        ks.2 = sigFor force ks.1) := by
  refine ⟨?_, ?_, ?_⟩
  · have h := killLoopAux_result_true env force max_retries 0
    simpa [kill_process_on_port, kill_process_on_port_run] using h
  · have h := killLoopAux_result_false env force max_retries 0
    simpa [kill_process_on_port, kill_process_on_port_run] using h
  · exact fun ks h => killLoopAux_signals env force max_retries 0 ks h

/-- Witness for the amended C5: with no owning process the reclaim reports
success at once. -/
theorem kill_process_on_port_spec_witness :
    kill_process_on_port killEnvFree false 3 = true :=
  (kill_process_on_port_spec killEnvFree false 3).1.mpr
    ⟨0, by omega, by decide, fun j hj => absurd hj (by omega)⟩

/-- C5 counterexample: when the very first termination signal is refused with
a permission error the reclaim returns false immediately - one iteration, one
SIGTERM - without retrying the remaining attempts of its budget of 3. -/
theorem kill_process_on_port_permission_denied_no_retry :
    kill_process_on_port_run killEnvPerm false 3 =
      { result := false, iterations := 1, signals := [(0, Sig.term)] }
    ∧ (1 : Nat) < 3 :=
  ⟨rfl, by omega⟩

/-- C6 (amended): `stop_tunnel` is a no-op without a stored process; when
termination completes without an exception - either the process exits within
the bounded wait, or the wait times out and the forceful kill succeeds - both
the process handle and the public URL are cleared; the forceful escalation
happens exactly when the bounded wait times out; but when an error is raised
during termination, the error is caught and the state is left unchanged, not
cleared. -/
theorem stop_tunnel_spec (env : StopEnv) (st : NgrokState) :
    (st.process = none →
      stop_tunnel env st = { state := st, escalated := false, errorCaught := false })
    ∧ (st.process ≠ none → env.terminateRaises = false → env.waitOutcome = .exited →
      stop_tunnel env st =
        { state := { process := none, tunnel_url := none },
          escalated := false, errorCaught := false })
    ∧ (st.process ≠ none → env.terminateRaises = false → env.waitOutcome = .timedOut →
      env.killRaises = false → env.wait2Raises = false →
      stop_tunnel env st =
        { state := { process := none, tunnel_url := none },
          escalated := true, errorCaught := false })
    ∧ ((stop_tunnel env st).errorCaught = true → (stop_tunnel env st).state = st)
    ∧ ((stop_tunnel env st).escalated = true ↔
      st.process ≠ none ∧ env.terminateRaises = false ∧ env.waitOutcome = .timedOut) := by
  rcases st with ⟨pr, url⟩
  rcases pr with _ | pid <;>
    cases htr : env.terminateRaises <;>
      cases hwo : env.waitOutcome <;>
        cases hkr : env.killRaises <;>
          cases hw2 : env.wait2Raises <;>
            simp [stop_tunnel, htr, hwo, hkr, hw2]

/-- Witness for the amended C6: a live tunnel stopped without incident has
both fields cleared, with no forceful escalation. -/
theorem stop_tunnel_spec_witness :
    stop_tunnel stopEnvHappy ngrokStateLive =
      { state := { process := none, tunnel_url := none },
        escalated := false, errorCaught := false } :=
  (stop_tunnel_spec stopEnvHappy ngrokStateLive).2.1 (by decide) rfl rfl

/-- C6 counterexample: when `terminate()` raises, the call returns with the
error caught but the process handle and public URL still set - the clearing
statements live inside the `try` (ngrok_manager.py lines 242-243), so they are
skipped on error. -/
theorem stop_tunnel_error_leaves_state_set :
    (stop_tunnel stopEnvRaises ngrokStateLive).state.process = some 7
    ∧ (stop_tunnel stopEnvRaises ngrokStateLive).state.tunnel_url = some "https://x.ngrok.io"
    ∧ (stop_tunnel stopEnvRaises ngrokStateLive).errorCaught = true := by
  decide

/-! ## Claim theorems: signature validation -/

/-- A single-position tamper: the two lists agree everywhere except at exactly
one position, where they differ. -/
inductive OneFlip {α : Type} : List α → List α → Prop where
  | here {a b : α} {t : List α} : a ≠ b → OneFlip (a :: t) (b :: t)
  | there {c : α} {t t2 : List α} : OneFlip t t2 → OneFlip (c :: t) (c :: t2)

/-- A flipped list is different. -/
theorem OneFlip.ne {α : Type} {l l2 : List α} (h : OneFlip l l2) : l ≠ l2 := by
  induction h with
  | here hab =>
    intro hc
    injection hc with h1 h2
    exact hab h1
  | there h0 ih =>
    intro hc
    injection hc with h1 h2
    exact ih h2

/-- A flip preserves length. -/
theorem OneFlip.length_eq {α : Type} {l l2 : List α} (h : OneFlip l l2) :
    l.length = l2.length := by
  induction h with
  | here hab => rfl
  | there h0 ih => simp [ih]

/-- A flip of a concatenation lands in the left part or in the right part. -/
theorem OneFlip.append_split {α : Type} {p t m : List α} (h : OneFlip (p ++ t) m) :
    (∃ p2, OneFlip p p2 ∧ p2.length = p.length ∧ m = p2 ++ t)
    ∨ (∃ t2, OneFlip t t2 ∧ m = p ++ t2) := by
  induction p generalizing m with
  | nil =>
    right
    exact ⟨m, h, rfl⟩
  | cons c p0 ih =>
    cases h with
    | here hab =>
      left
      exact ⟨_ :: p0, .here hab, rfl, rfl⟩
    | there h0 =>
      rcases ih h0 with ⟨p2, hf, hlen, rfl⟩ | ⟨t2, hf, rfl⟩
      · left
        exact ⟨c :: p2, .there hf, by simp [hlen], rfl⟩
      · right
        exact ⟨t2, hf, rfl⟩

/-- The validity characterization of `validate_github_signature`: it answers
`true` exactly when the header is present, the secret non-empty, the header
carries the `"sha256="` prefix, and the rest of the header is the hex
HMAC-SHA256 of the body under the secret. -/
theorem validate_true_iff (payload_body : List Nat) (signature_header : Option String)
    (secret : String) :
    validate_github_signature payload_body signature_header secret = true ↔
      ∃ h, signature_header = some h ∧ secret ≠ "" ∧ strStartsWith h "sha256=" = true ∧
        strDrop h 7 = hmacSha256Hex (utf8Encode secret) payload_body := by
  cases signature_header with
  | none => simp [validate_github_signature]
  | some h =>
    by_cases h0 : h = ""
    · subst h0
      have hsw : strStartsWith "" "sha256=" = false := by decide
      simp [validate_github_signature, hsw]
    · by_cases hsec : secret = ""
      · simp [validate_github_signature, h0, hsec]
      · by_cases hpre : strStartsWith h "sha256=" = true
        · have heval : validate_github_signature payload_body (some h) secret =
              (hmacSha256Hex (utf8Encode secret) payload_body == strDrop h 7) := by
            unfold validate_github_signature
            dsimp only
            rw [if_neg (by simp [h0, hsec]), if_pos hpre]
          rw [heval]
          constructor
          · intro hv
            exact ⟨h, rfl, hsec, hpre, (beq_iff_eq.mp hv).symm⟩
          · rintro ⟨h2, hinj, _, _, hdig⟩
            have hh : h = h2 := Option.some.inj hinj
            rw [← hh] at hdig
            exact beq_iff_eq.mpr hdig.symm
        · have hpf : strStartsWith h "sha256=" = false := by
            rcases Bool.eq_false_or_eq_true (strStartsWith h "sha256=") with hb | hb
            · exact absurd hb hpre
            · exact hb
          have heval : validate_github_signature payload_body (some h) secret = false := by
            unfold validate_github_signature
            dsimp only
            rw [if_neg (by simp [h0, hsec]), if_neg (by simp [hpf])]
          rw [heval]
          constructor
          · intro hv
            exact Bool.noConfusion hv
          · rintro ⟨h2, hinj, _, hpre2, _⟩
            injection hinj with hh
            subst hh
            rw [hpf] at hpre2
            exact Bool.noConfusion hpre2

/-- Helper: a validated header decomposes as the `"sha256="` prefix followed
by the digest. -/
theorem validated_header_decomp (h : String)
    (hpre : strStartsWith h "sha256=" = true) :
    h.data = ("sha256=" : String).data ++ h.data.drop 7 := by
  have hp : ("sha256=" : String).data <+: h.data :=
    List.isPrefixOf_iff_prefix.mp hpre
  obtain ⟨r, hr⟩ := hp
  have hlen : ("sha256=" : String).data.length = 7 := by decide
  have hdrop : h.data.drop 7 = r := by
    rw [← hr, ← hlen, List.drop_left]
  rw [hdrop]
  exact hr.symm

/-- Helper: a non-empty data list means a non-empty string. -/
theorem string_ne_empty_of_data {s : String} (h : s.data ≠ []) : s ≠ "" := by
  intro hc
  rw [hc] at h
  exact h rfl

/-- Helper: when its header prefix check fails, the validator answers false. -/
theorem validate_false_of_no_prefix (payload_body : List Nat) (h : String) (secret : String)
    (hpf : strStartsWith h "sha256=" = false) :
    validate_github_signature payload_body (some h) secret = false := by
  by_cases h0 : h = ""
  · subst h0
    unfold validate_github_signature
    dsimp only
    rw [if_pos (by simp)]
  · by_cases hsec : secret = ""
    · unfold validate_github_signature
      dsimp only
      rw [if_pos (by simp [hsec])]
    · unfold validate_github_signature
      dsimp only
      rw [if_neg (by simp [h0, hsec]), if_neg (by simp [hpf])]

/-- C4: `validate_github_signature` returns true iff the header is present,
the secret non-empty, the header carries the `"sha256="` prefix, and the
header's hex digest equals the HMAC-SHA256 of the exact body bytes under the
secret; flipping any single code point of a validated header makes it return
false, and flipping any single byte of the body makes it return false
whenever the flip changes the HMAC (a flip can survive only as an HMAC
collision). -/
theorem validate_github_signature_spec (payload_body : List Nat)
    (signature_header : Option String) (secret : String) :
    (validate_github_signature payload_body signature_header secret = true ↔
      ∃ h, signature_header = some h ∧ secret ≠ "" ∧ strStartsWith h "sha256=" = true ∧
        strDrop h 7 = hmacSha256Hex (utf8Encode secret) payload_body)
    ∧ (∀ h h2 : String, signature_header = some h →
        validate_github_signature payload_body signature_header secret = true →
        OneFlip h.data h2.data →
        validate_github_signature payload_body (some h2) secret = false)
    ∧ (∀ body2 : List Nat,
        validate_github_signature payload_body signature_header secret = true →
        OneFlip payload_body body2 →
        hmacSha256Hex (utf8Encode secret) body2
          ≠ hmacSha256Hex (utf8Encode secret) payload_body →
        validate_github_signature body2 signature_header secret = false) := by
  refine ⟨validate_true_iff payload_body signature_header secret, ?_, ?_⟩
  · intro h h2 hhd hv hflip
    rcases (validate_true_iff payload_body signature_header secret).mp hv
      with ⟨h3, hinj, hsec, hpre, hdig⟩
    rw [hhd] at hinj
    have hh : h = h3 := Option.some.inj hinj
    rw [← hh] at hpre hdig
    have hdecomp := validated_header_decomp h hpre
    have hflip2 : OneFlip (("sha256=" : String).data ++ h.data.drop 7) h2.data := by
      rw [← hdecomp]
      exact hflip
    rcases OneFlip.append_split hflip2 with ⟨p2, hf, hlen, hm⟩ | ⟨t2, hf, hm⟩
    · have hpf : strStartsWith h2 "sha256=" = false := by
        rcases Bool.eq_false_or_eq_true (strStartsWith h2 "sha256=") with hb | hb
        · exfalso
          have hp : ("sha256=" : String).data <+: h2.data :=
            List.isPrefixOf_iff_prefix.mp hb
          obtain ⟨r2, hr2⟩ := hp
          rw [hm] at hr2
          have hinj2 := List.append_inj hr2 (by rw [hlen])
          exact hf.ne hinj2.1
        · exact hb
      exact validate_false_of_no_prefix payload_body h2 secret hpf
    · have hpre2 : strStartsWith h2 "sha256=" = true := by
        apply List.isPrefixOf_iff_prefix.mpr
        rw [hm]
        exact List.prefix_append _ _
      have hne2 : h2 ≠ "" := by
        apply string_ne_empty_of_data
        rw [hm]
        simp
      have hdrop2 : strDrop h2 7 = String.mk t2 := by
        unfold strDrop
        have hlen7 : (7 : Nat) = ("sha256=" : String).data.length := by decide
        rw [hm, hlen7, List.drop_left]
      have hdroph : strDrop h 7 = String.mk (h.data.drop 7) := rfl
      have heval : validate_github_signature payload_body (some h2) secret =
          (hmacSha256Hex (utf8Encode secret) payload_body == strDrop h2 7) := by
        unfold validate_github_signature
        dsimp only
        rw [if_neg (by simp [hne2, hsec]), if_pos hpre2]
      rw [heval, hdrop2, ← hdig, hdroph]
      apply beq_eq_false_iff_ne.mpr
      intro hc
      injection hc with hc2
      exact hf.ne hc2
  · intro body2 hv hflip hneq
    rcases (validate_true_iff payload_body signature_header secret).mp hv
      with ⟨h, hhd, hsec, hpre, hdig⟩
    subst hhd
    rcases Bool.eq_false_or_eq_true (validate_github_signature body2 (some h) secret)
      with hb | hb
    · exfalso
      rcases (validate_true_iff body2 (some h) secret).mp hb
        with ⟨h2, hinj, _, _, hdig2⟩
      have hh : h = h2 := Option.some.inj hinj
      rw [← hh] at hdig2
      apply hneq
      rw [← hdig2, hdig]
    · exact hb

/-- A flip at a definite position: same prefix, one changed element, same
tail. -/
theorem OneFlip.of_append {α : Type} (a : List α) {c d : α} (t : List α) (h : c ≠ d) :
    OneFlip (a ++ c :: t) (a ++ d :: t) := by
  induction a with
  | nil => exact .here h
  | cons x a0 ih => exact .there ih

set_option maxRecDepth 8000 in
/-- Witness for C4 on the RFC-style test vector
`HMAC-SHA256("key", "abc")`: the correctly signed request validates; the same
request with the first digest character flipped is rejected; and the same
header over a body with its last byte flipped is rejected. -/
theorem validate_github_signature_spec_witness :
    validate_github_signature (utf8Encode "abc")
      (some "sha256=9c196e32dc0175f86f4b1cb89289d6619de6bee699e4c378e68309ed97a1a6ab")
      "key" = true
    ∧ validate_github_signature (utf8Encode "abc")
      (some "sha256=ac196e32dc0175f86f4b1cb89289d6619de6bee699e4c378e68309ed97a1a6ab")
      "key" = false
    ∧ validate_github_signature (utf8Encode "abd")
      (some "sha256=9c196e32dc0175f86f4b1cb89289d6619de6bee699e4c378e68309ed97a1a6ab")
      "key" = false := by
  have h1 : validate_github_signature (utf8Encode "abc")
      (some "sha256=9c196e32dc0175f86f4b1cb89289d6619de6bee699e4c378e68309ed97a1a6ab")
      "key" = true :=
    (validate_github_signature_spec (utf8Encode "abc")
      (some "sha256=9c196e32dc0175f86f4b1cb89289d6619de6bee699e4c378e68309ed97a1a6ab")
      "key").1.mpr
      ⟨"sha256=9c196e32dc0175f86f4b1cb89289d6619de6bee699e4c378e68309ed97a1a6ab",
        rfl, by decide, by decide, by decide⟩
  refine ⟨h1, ?_, ?_⟩
  · apply (validate_github_signature_spec (utf8Encode "abc")
      (some "sha256=9c196e32dc0175f86f4b1cb89289d6619de6bee699e4c378e68309ed97a1a6ab")
      "key").2.1
      "sha256=9c196e32dc0175f86f4b1cb89289d6619de6bee699e4c378e68309ed97a1a6ab"
      "sha256=ac196e32dc0175f86f4b1cb89289d6619de6bee699e4c378e68309ed97a1a6ab"
      rfl h1
    exact OneFlip.of_append
      ("sha256=" : String).data
      ("c196e32dc0175f86f4b1cb89289d6619de6bee699e4c378e68309ed97a1a6ab" : String).data
      (by decide)
  · apply (validate_github_signature_spec (utf8Encode "abc")
      (some "sha256=9c196e32dc0175f86f4b1cb89289d6619de6bee699e4c378e68309ed97a1a6ab")
      "key").2.2
      (utf8Encode "abd") h1
    · exact .there (.there (.here (by decide)))
    · decide
